import Mathlib

/-!
Verification of the Brave `AdBlockEngine` wrapper
(`brave/components/brave_shields/browser/ad_block_engine.cc`) and of the
core adblock matching engine it delegates to.  The wrapper's code is under
`src/`; the core engine (`adblock::Engine` from `adblock_rust_ffi`) is not,
so its matcher, tag set, resource catalog and snapshot codec are modelled
from the design specification.
-/

namespace BraveShields

/-- The `blink::mojom::ResourceType` enumeration, exactly the constructors
named in the `switch` of `ResourceTypeToString` in `ad_block_engine.cc`. -/
inductive ResourceType where
  | kMainFrame
  | kSubFrame
  | kStylesheet
  | kScript
  | kFavicon
  | kImage
  | kFontResource
  | kSubResource
  | kObject
  | kMedia
  | kXhr
  | kPing
  | kWorker
  | kSharedWorker
  | kPrefetch
  | kServiceWorker
  | kCspReport
  | kPluginResource
  deriving DecidableEq, Repr

/-- Embeds `ResourceTypeToString` from `ad_block_engine.cc` lines 31-95:
each resource type maps to a filter-option string; worker, shared worker,
prefetch, service worker, CSP report and plugin resources (and the default
case) map to the empty string. -/
def ResourceTypeToString : ResourceType → String
  | .kMainFrame => "main_frame"
  | .kSubFrame => "sub_frame"
  | .kStylesheet => "stylesheet"
  | .kScript => "script"
  | .kFavicon => "image"
  | .kImage => "image"
  | .kFontResource => "font"
  | .kSubResource => "other"
  | .kObject => "object"
  | .kMedia => "media"
  | .kXhr => "xhr"
  | .kPing => "ping"
  | .kWorker => ""
  | .kSharedWorker => ""
  | .kPrefetch => ""
  | .kServiceWorker => ""
  | .kCspReport => ""
  | .kPluginResource => ""

/-- The closed resource-type vocabulary of the boundary (spec section 6). -/
def resourceTypeVocabulary : List String :=
  ["main_frame", "sub_frame", "stylesheet", "script", "image", "font",
   "other", "object", "media", "xhr", "ping"]

/-- Modelled from the spec: a parsed network rule of the core engine
(`adblock::Engine`, absent from `src/`).  Spec section 3: pattern,
resource-type restriction, domain include/exclude sets, third-party flag,
tag requirement, importance flag, exception flag. -/
structure Rule where
  pattern : String
  /-- `none` means no resource-type restriction; `some ts` restricts the
  rule to the listed resource-type strings. -/
  resourceTypes : Option (List String)
  /-- `some true` = third-party only, `some false` = first-party only,
  `none` = no constraint. -/
  thirdParty : Option Bool
  /-- Empty list means the rule applies on every source domain. -/
  includeDomains : List String
  excludeDomains : List String
  /-- Optional tag requirement: the rule is inactive unless this tag is
  currently enabled. -/
  tag : Option String
  important : Bool
  isException : Bool
  deriving DecidableEq, Repr

/-- A request descriptor as passed to the core engine `matches` call
(spec section 4.3). -/
structure Request where
  url : String
  host : String
  sourceHost : String
  isThirdParty : Bool
  resourceType : String
  deriving DecidableEq, Repr

/-- Does the character list `p` occur as a leading block of `l`? -/
def charsLead (p l : List Char) : Bool :=
  p == l.take p.length

/-- Does the character list `p` occur contiguously inside `l`? -/
def charsContain (p : List Char) : List Char → Bool
  | [] => p == []
  | c :: rest => charsLead p (c :: rest) || charsContain p rest

/-- Modelled from the spec: literal-substring pattern matching of the core
engine (the regex and anchored forms of spec section 3 are specialised to
the substring form; the claims under proof do not depend on the pattern
language). -/
def patternMatches (pat url : String) : Bool :=
  charsContain pat.data url.data

/-- Modelled from the spec: a rule with a tag requirement is inactive
unless that tag is currently enabled (spec section 3, Tag). -/
def ruleActive (enabledTags : List String) (r : Rule) : Bool :=
  match r.tag with
  | none => true
  | some t => enabledTags.contains t

/-- Resource-type restriction check (spec section 4.3 step 2). -/
def typeOk (r : Rule) (q : Request) : Bool :=
  match r.resourceTypes with
  | none => true
  | some ts => ts.contains q.resourceType

/-- Third-party / first-party constraint check (spec section 4.3 step 2). -/
def thirdPartyOk (r : Rule) (q : Request) : Bool :=
  match r.thirdParty with
  | none => true
  | some b => b == q.isThirdParty

/-- Domain include/exclude check against the source host
(spec section 4.3 step 2). -/
def domainOk (r : Rule) (q : Request) : Bool :=
  (r.includeDomains.isEmpty || r.includeDomains.contains q.sourceHost) &&
    !(r.excludeDomains.contains q.sourceHost)

/-- Modelled from the spec: the full predicate of one rule against one
request (spec section 4.3 step 2): tag requirement enabled, then pattern,
resource type, third-party constraint, domain include/exclude. -/
def rulePredicate (enabledTags : List String) (r : Rule) (q : Request) : Bool :=
  ruleActive enabledTags r && patternMatches r.pattern q.url &&
    typeOk r q && thirdPartyOk r q && domainOk r q

/-- Result of the core engine `matches` call: the three booleans the
wrapper receives through `did_match_rule`, `did_match_exception` and
`did_match_important`. -/
structure MatchResult where
  matchedBlock : Bool
  matchedException : Bool
  matchedImportant : Bool
  deriving DecidableEq, Repr

/-- Resolution of spec section 4.3 steps 3-4: the request is blocked when a
block rule matched and the block is not suppressed; an exception suppresses
the block unless an important block rule matched. -/
def MatchResult.blocked (m : MatchResult) : Bool :=
  m.matchedBlock && (m.matchedImportant || !m.matchedException)

/-- Modelled from the spec: the core engine `matches` call
(spec section 4.3, absent from `src/`): evaluate every rule's full
predicate and report whether a block rule, an exception rule, and an
important block rule matched.  (`matches` is a reserved token in Lean, so
the definition is named `engineMatches`.) -/
def engineMatches (enabledTags : List String) (rules : List Rule) (q : Request) :
    MatchResult :=
  { matchedBlock :=
      (rules.filter (fun r => rulePredicate enabledTags r q)).any
        (fun r => !r.isException)
    matchedException :=
      (rules.filter (fun r => rulePredicate enabledTags r q)).any
        (fun r => r.isException)
    matchedImportant :=
      (rules.filter (fun r => rulePredicate enabledTags r q)).any
        (fun r => !r.isException && r.important) }

/-! ### Snapshot codec

Modelled from the spec (section 4.5, absent from `src/`): the codec
serializes the fully-built index into a byte buffer and deserializes it
back; deserializing malformed bytes fails (returns no index). -/

/-- Encode a boolean as one byte. -/
def encBool (b : Bool) : List Nat :=
  [cond b 1 0]

/-- Encode a character list as its character codes. -/
def encChars (cs : List Char) : List Nat :=
  cs.map Char.toNat

/-- Encode a string as a length followed by character codes. -/
def encString (s : String) : List Nat :=
  s.data.length :: encChars s.data

/-- Encode a list as a count followed by the encoded elements. -/
def encListN {α : Type} (enc : α → List Nat) (xs : List α) : List Nat :=
  xs.length :: (xs.map enc).flatten

/-- Encode an optional value as a presence byte followed by the value. -/
def encOption {α : Type} (enc : α → List Nat) : Option α → List Nat
  | none => [0]
  | some x => 1 :: enc x

/-- Encode one rule, field by field. -/
def encRule (r : Rule) : List Nat :=
  encString r.pattern ++ encOption (encListN encString) r.resourceTypes ++
    encOption encBool r.thirdParty ++ encListN encString r.includeDomains ++
    encListN encString r.excludeDomains ++ encOption encString r.tag ++
    encBool r.important ++ encBool r.isException

/-- Modelled from the spec: `serialize(index) → bytes` of the snapshot
codec (spec section 4.5). -/
def serializeIndex (rules : List Rule) : List Nat :=
  encListN encRule rules

/-- Decode one byte as a natural number. -/
def decNat : List Nat → Option (Nat × List Nat)
  | [] => none
  | n :: rest => some (n, rest)

/-- Decode one byte as a boolean; any other byte is malformed. -/
def decBool : List Nat → Option (Bool × List Nat)
  | 0 :: rest => some (false, rest)
  | 1 :: rest => some (true, rest)
  | _ => none

/-- Decode exactly `n` characters. -/
def decChars : Nat → List Nat → Option (List Char × List Nat)
  | 0, bs => some ([], bs)
  | _ + 1, [] => none
  | k + 1, n :: rest =>
    match decChars k rest with
    | none => none
    | some (cs, bs) => some (Char.ofNat n :: cs, bs)

/-- Decode a length-prefixed string. -/
def decString (bs : List Nat) : Option (String × List Nat) :=
  match decNat bs with
  | none => none
  | some (len, rest) =>
    match decChars len rest with
    | none => none
    | some (cs, bs1) => some (String.mk cs, bs1)

/-- Decode exactly `n` elements with the given element decoder. -/
def decCount {α : Type} (dec : List Nat → Option (α × List Nat)) :
    Nat → List Nat → Option (List α × List Nat)
  | 0, bs => some ([], bs)
  | k + 1, bs =>
    match dec bs with
    | none => none
    | some (x, rest) =>
      match decCount dec k rest with
      | none => none
      | some (xs, bs1) => some (x :: xs, bs1)

/-- Decode a count-prefixed list. -/
def decListN {α : Type} (dec : List Nat → Option (α × List Nat))
    (bs : List Nat) : Option (List α × List Nat) :=
  match decNat bs with
  | none => none
  | some (n, rest) => decCount dec n rest

/-- Decode a presence-prefixed optional value. -/
def decOption {α : Type} (dec : List Nat → Option (α × List Nat)) :
    List Nat → Option (Option α × List Nat)
  | 0 :: rest => some (none, rest)
  | 1 :: rest =>
    match dec rest with
    | none => none
    | some (x, bs) => some (some x, bs)
  | _ => none

/-- Decode one rule, field by field. -/
def decRule (bs : List Nat) : Option (Rule × List Nat) :=
  match decString bs with
  | none => none
  | some (pat, bs1) =>
  match decOption (decListN decString) bs1 with
  | none => none
  | some (rts, bs2) =>
  match decOption decBool bs2 with
  | none => none
  | some (tp, bs3) =>
  match decListN decString bs3 with
  | none => none
  | some (incl, bs4) =>
  match decListN decString bs4 with
  | none => none
  | some (excl, bs5) =>
  match decOption decString bs5 with
  | none => none
  | some (tg, bs6) =>
  match decBool bs6 with
  | none => none
  | some (imp, bs7) =>
  match decBool bs7 with
  | none => none
  | some (exc, bs8) =>
    some ({ pattern := pat, resourceTypes := rts, thirdParty := tp,
            includeDomains := incl, excludeDomains := excl, tag := tg,
            important := imp, isException := exc }, bs8)

/-- Modelled from the spec: `deserialize(bytes) → index | failure` of the
snapshot codec (spec section 4.5); buffers that are not exactly a
serialized index fail. -/
def deserializeIndex (bs : List Nat) : Option (List Rule) :=
  match decListN decRule bs with
  | some (rules, []) => some rules
  | _ => none

theorem decBool_enc (b : Bool) (rest : List Nat) :
    decBool (encBool b ++ rest) = some (b, rest) := by
  cases b <;> rfl

theorem decChars_enc (cs : List Char) (rest : List Nat) :
    decChars cs.length (encChars cs ++ rest) = some (cs, rest) := by
  induction cs with
  | nil => rfl
  | cons c cs ih =>
    simp only [encChars] at ih
    simp [encChars, decChars, Char.ofNat_toNat, ih]

theorem decString_enc (s : String) (rest : List Nat) :
    decString (encString s ++ rest) = some (s, rest) := by
  cases s with
  | mk data => simp [encString, decString, decNat, decChars_enc]

theorem decCount_enc {α : Type} (dec : List Nat → Option (α × List Nat))
    (enc : α → List Nat) (h : ∀ x rest, dec (enc x ++ rest) = some (x, rest))
    (xs : List α) (rest : List Nat) :
    decCount dec xs.length ((xs.map enc).flatten ++ rest) = some (xs, rest) := by
  induction xs generalizing rest with
  | nil => rfl
  | cons x xs ih => simp [decCount, List.append_assoc, h, ih]

theorem decListN_enc {α : Type} (dec : List Nat → Option (α × List Nat))
    (enc : α → List Nat) (h : ∀ x rest, dec (enc x ++ rest) = some (x, rest))
    (xs : List α) (rest : List Nat) :
    decListN dec (encListN enc xs ++ rest) = some (xs, rest) := by
  simp [encListN, decListN, decNat, decCount_enc dec enc h]

theorem decOption_enc {α : Type} (dec : List Nat → Option (α × List Nat))
    (enc : α → List Nat) (h : ∀ x rest, dec (enc x ++ rest) = some (x, rest))
    (x? : Option α) (rest : List Nat) :
    decOption dec (encOption enc x? ++ rest) = some (x?, rest) := by
  cases x? with
  | none => rfl
  | some x => simp [encOption, decOption, h]

theorem decRule_enc (r : Rule) (rest : List Nat) :
    decRule (encRule r ++ rest) = some (r, rest) := by
  cases r
  simp [encRule, decRule, List.append_assoc, decString_enc, decBool_enc,
    decOption_enc decBool encBool decBool_enc,
    decOption_enc decString encString decString_enc,
    decListN_enc decString encString decString_enc,
    decOption_enc (decListN decString) (encListN encString)
      (decListN_enc decString encString decString_enc)]

theorem deserializeIndex_serializeIndex (rules : List Rule) :
    deserializeIndex (serializeIndex rules) = some rules := by
  have h := decListN_enc decRule encRule decRule_enc rules []
  rw [List.append_nil] at h
  simp [deserializeIndex, serializeIndex, h]

/-! ### Third-party classification

`ShouldStartRequest` and `GetCspDirectives` in `ad_block_engine.cc` compute
`is_third_party` as the negation of
`net::registry_controlled_domains::SameDomainOrHost` applied to the request
URL and an origin built from the tab host.  That function is outside
`src/`, so it is modelled from the spec: a request is third-party exactly
when the registrable domains differ (spec sections 8 and glossary). -/

/-- Split a character list into dot-separated labels. -/
def splitLabels : List Char → List (List Char)
  | [] => [[]]
  | c :: rest =>
    let r := splitLabels rest
    if c = '.' then [] :: r
    else
      match r with
      | [] => [[c]]
      | l :: ls => (c :: l) :: ls

/-- The dot-separated labels of a host name. -/
def hostLabels (host : String) : List String :=
  (splitLabels host.data).map String.mk

/-- Join labels back with dots. -/
def joinLabels : List String → String
  | [] => ""
  | [l] => l
  | l :: ls => l ++ "." ++ joinLabels ls

/-- Find the label list of the registrable domain: the first position whose
remainder is a registry suffix, kept together with one preceding label;
longer registry suffixes are preferred.  A host that is itself a registry,
or matches no registry, has no registrable domain. -/
def regDomainLabels (suffixes : List String) : List String → List String
  | [] => []
  | l :: rest =>
    if suffixes.contains (joinLabels rest) then l :: rest
    else regDomainLabels suffixes rest

/-- Modelled from the spec: the registrable domain (eTLD+1) of a host,
parameterised by the registry-suffix list
(`net::registry_controlled_domains` is absent from `src/`). -/
def registrableDomain (suffixes : List String) (host : String) : String :=
  joinLabels (regDomainLabels suffixes (hostLabels host))

/-- Modelled from the spec: `SameDomainOrHost` over host names — the hosts
agree in registrable domain (spec glossary: a third-party request is one
whose target registrable domain differs from the page's). -/
def sameDomainOrHost (suffixes : List String) (host1 host2 : String) : Bool :=
  registrableDomain suffixes host1 == registrableDomain suffixes host2

/-- A URL as the wrapper consumes it: `url.spec()` and `url.host()`. -/
structure GURL where
  spec : String
  host : String
  deriving DecidableEq, Repr

/-- The third-party determination of `ShouldStartRequest` and
`GetCspDirectives` (`ad_block_engine.cc` lines 120-123 and 143-146):
`is_third_party` is the negation of `SameDomainOrHost` between the request
URL's host and the tab host. -/
def computeThirdParty (suffixes : List String) (url : GURL)
    (tabHost : String) : Bool :=
  !(sameDomainOrHost suffixes url.host tabHost)

/-! ### The wrapper state machine (`AdBlockEngine`) -/

/-- Modelled from the spec: the discard policy for compiled regexes
(`adblock::RegexManagerDiscardPolicy`, absent from `src/`): an idle-time
threshold and a cap on the number of compiled patterns (spec section 4.2). -/
structure RegexDiscardPolicy where
  idleSeconds : Nat
  maxCompiled : Nat
  deriving DecidableEq, Repr

/-- Modelled from the spec: the state of one core engine instance
(`adblock::Engine`, absent from `src/`): the rule index, the enabled-tag
set, the resource catalog and the configured discard policy. -/
structure EngineState where
  rules : List Rule
  enabledTags : List String
  resources : String
  policy : RegexDiscardPolicy
  deriving DecidableEq, Repr

/-- A freshly constructed `adblock::Engine()`: empty index, no tags, empty
resource catalog, default policy. -/
def emptyEngine : EngineState :=
  { rules := [], enabledTags := [], resources := "",
    policy := { idleSeconds := 0, maxCompiled := 0 } }

/-- Modelled from the spec: `addTag` enables a tag in the engine's
active-tag set without touching the index (spec section 4.2). -/
def engineAddTag (e : EngineState) (t : String) : EngineState :=
  if e.enabledTags.contains t then e
  else { e with enabledTags := e.enabledTags ++ [t] }

/-- Modelled from the spec: `removeTag` disables a tag. -/
def engineRemoveTag (e : EngineState) (t : String) : EngineState :=
  { e with enabledTags := e.enabledTags.filter (fun x => x != t) }

/-- Modelled from the spec: `useResources` replaces the whole resource
catalog atomically (spec section 3, Resource). -/
def engineUseResources (e : EngineState) (r : String) : EngineState :=
  { e with resources := r }

/-- Modelled from the spec: `setupDiscardPolicy` configures automatic
regex eviction (spec section 4.2). -/
def engineSetupDiscardPolicy (e : EngineState) (p : RegexDiscardPolicy) :
    EngineState :=
  { e with policy := p }

/-- Modelled from the spec: `adblock::Engine::deserialize` on a fresh
engine: on success the deserialized index replaces the empty one; on
failure the engine is left matching nothing (spec sections 4.2 and 7; the
wrapper ignores the boolean result of the FFI call). -/
def engineDeserialize (e : EngineState) (bs : List Nat) : EngineState :=
  match deserializeIndex bs with
  | some rules => { e with rules := rules }
  | none => e

/-- The state of the wrapper object `AdBlockEngine`: the owned core engine
`ad_block_client_`, the remembered tag set `tags_` and the remembered
discard policy `regex_discard_policy_`. -/
structure AdBlockEngineState where
  client : EngineState
  tags : List String
  regexDiscardPolicy : RegexDiscardPolicy
  deriving DecidableEq, Repr

/-- Embeds `AdBlockEngine::EnableTag` (lines 158-169): when enabling, the
tag is forwarded to the engine and remembered only if it was not already
present; when disabling, it is removed from both. -/
def enableTag (st : AdBlockEngineState) (tag : String) (enabled : Bool) :
    AdBlockEngineState :=
  if enabled then
    if st.tags.contains tag then st
    else { st with client := engineAddTag st.client tag,
                   tags := st.tags ++ [tag] }
  else
    { st with client := engineRemoveTag st.client tag,
              tags := st.tags.filter (fun x => x != tag) }

/-- Embeds `AdBlockEngine::UseResources` (lines 171-174). -/
def useResources (st : AdBlockEngineState) (r : String) : AdBlockEngineState :=
  { st with client := engineUseResources st.client r }

/-- Embeds `AdBlockEngine::TagExists` (lines 176-179). -/
def tagExists (st : AdBlockEngineState) (tag : String) : Bool :=
  st.tags.contains tag

/-- Embeds `AdBlockEngine::SetupDiscardPolicy` (lines 206-211): the policy
is remembered and forwarded to the current engine. -/
def setupDiscardPolicy (st : AdBlockEngineState) (p : RegexDiscardPolicy) :
    AdBlockEngineState :=
  { st with regexDiscardPolicy := p,
            client := engineSetupDiscardPolicy st.client p }

/-- Embeds `AdBlockEngine::AddKnownTagsToAdBlockInstance` (lines 265-271):
every remembered tag is re-added to the current engine. -/
def addKnownTagsToAdBlockInstance (st : AdBlockEngineState) :
    AdBlockEngineState :=
  { st with client := st.tags.foldl engineAddTag st.client }

/-- Embeds `AdBlockEngine::UpdateAdBlockClient` (lines 252-263): the new
engine replaces the old one, then the remembered discard policy, the
resources argument and the remembered tags are applied to it. -/
def updateAdBlockClient (st : AdBlockEngineState) (c : EngineState)
    (resourcesJson : String) : AdBlockEngineState :=
  let st1 := { st with client := c }
  let st2 :=
    { st1 with client := engineSetupDiscardPolicy st1.client st1.regexDiscardPolicy }
  let st3 := useResources st2 resourcesJson
  addKnownTagsToAdBlockInstance st3

/-- Embeds `AdBlockEngine::OnListSourceLoaded` (lines 273-278): a fresh
engine is built from the filter text by the core parser (modelled here as
the function argument `parse`, since the parser is part of the core engine
and absent from `src/`). -/
def onListSourceLoaded (parse : List Nat → List Rule)
    (st : AdBlockEngineState) (filters : List Nat)
    (resourcesJson : String) : AdBlockEngineState :=
  updateAdBlockClient st { emptyEngine with rules := parse filters }
    resourcesJson

/-- Embeds `AdBlockEngine::OnDATLoaded` (lines 280-292): an empty buffer
returns immediately without touching any state; otherwise a fresh engine
deserializes the buffer and replaces the current one. -/
def onDATLoaded (st : AdBlockEngineState) (datBuf : List Nat)
    (resourcesJson : String) : AdBlockEngineState :=
  if datBuf.isEmpty then st
  else updateAdBlockClient st (engineDeserialize emptyEngine datBuf)
    resourcesJson

/-- Embeds `AdBlockEngine::Load` (lines 242-250). -/
def load (parse : List Nat → List Rule) (st : AdBlockEngineState)
    (deserialize : Bool) (datBuf : List Nat) (resourcesJson : String) :
    AdBlockEngineState :=
  if deserialize then onDATLoaded st datBuf resourcesJson
  else onListSourceLoaded parse st datBuf resourcesJson

/-- Embeds `AdBlockEngine::ShouldStartRequest` (lines 107-133): the
third-party bit is computed from the URL host and the tab host, and the
request is forwarded to the core engine's `matches`. -/
def shouldStartRequest (suffixes : List String) (st : AdBlockEngineState)
    (url : GURL) (resourceType : ResourceType) (tabHost : String) :
    MatchResult :=
  let isThirdParty := computeThirdParty suffixes url tabHost
  engineMatches st.client.enabledTags st.client.rules
    { url := url.spec, host := url.host, sourceHost := tabHost,
      isThirdParty := isThirdParty,
      resourceType := ResourceTypeToString resourceType }

/-! ### Cosmetic query wrappers -/

/-- Embeds `AdBlockEngine::UrlCosmeticResources` (lines 213-224): the core
engine's JSON output (the engine call and `base::JSONReader::Read` are
outside `src/` and modelled as the function arguments) is parsed; on parse
failure an empty dictionary is returned.  A dictionary is modelled as a
key/value association list. -/
def urlCosmeticResources (jsonReadDict : String → Option (List (String × String)))
    (engineCosmetic : String → String) (url : String) :
    List (String × String) :=
  match jsonReadDict (engineCosmetic url) with
  | none => []
  | some d => d

/-- Embeds `AdBlockEngine::HiddenClassIdSelectors` (lines 226-240): the
core engine's JSON output is parsed; on parse failure an empty list is
returned. -/
def hiddenClassIdSelectors (jsonReadList : String → Option (List String))
    (engineHidden : List String → List String → List String → String)
    (classes ids exceptions : List String) : List String :=
  match jsonReadList (engineHidden classes ids exceptions) with
  | none => []
  | some l => l

/-! ### Helper lemmas -/

theorem contains_iff {l : List String} {a : String} :
    l.contains a = true ↔ a ∈ l :=
  List.elem_iff

theorem engineAddTag_rules (e : EngineState) (t : String) :
    (engineAddTag e t).rules = e.rules := by
  unfold engineAddTag
  split <;> rfl

theorem engineAddTag_resources (e : EngineState) (t : String) :
    (engineAddTag e t).resources = e.resources := by
  unfold engineAddTag
  split <;> rfl

theorem engineAddTag_policy (e : EngineState) (t : String) :
    (engineAddTag e t).policy = e.policy := by
  unfold engineAddTag
  split <;> rfl

theorem mem_engineAddTag (e : EngineState) (t x : String) :
    x ∈ (engineAddTag e t).enabledTags ↔ x ∈ e.enabledTags ∨ x = t := by
  unfold engineAddTag
  by_cases h : e.enabledTags.contains t = true
  · rw [if_pos h]
    have ht : t ∈ e.enabledTags := contains_iff.mp h
    constructor
    · exact fun hx => Or.inl hx
    · rintro (hx | rfl)
      · exact hx
      · exact ht
  · rw [if_neg h]
    simp [List.mem_append]

theorem foldl_engineAddTag_rules (ts : List String) (e : EngineState) :
    (ts.foldl engineAddTag e).rules = e.rules := by
  induction ts generalizing e with
  | nil => rfl
  | cons t ts ih => simp [List.foldl_cons, ih, engineAddTag_rules]

theorem foldl_engineAddTag_resources (ts : List String) (e : EngineState) :
    (ts.foldl engineAddTag e).resources = e.resources := by
  induction ts generalizing e with
  | nil => rfl
  | cons t ts ih => simp [List.foldl_cons, ih, engineAddTag_resources]

theorem foldl_engineAddTag_policy (ts : List String) (e : EngineState) :
    (ts.foldl engineAddTag e).policy = e.policy := by
  induction ts generalizing e with
  | nil => rfl
  | cons t ts ih => simp [List.foldl_cons, ih, engineAddTag_policy]

theorem mem_foldl_engineAddTag (ts : List String) (e : EngineState)
    (x : String) :
    x ∈ (ts.foldl engineAddTag e).enabledTags ↔
      x ∈ e.enabledTags ∨ x ∈ ts := by
  induction ts generalizing e with
  | nil => simp
  | cons t ts ih =>
    simp [List.foldl_cons, ih, mem_engineAddTag]
    tauto

/-- The fields of the wrapper state after `UpdateAdBlockClient`: the
remembered tag set and policy are untouched; the new engine carries the
remembered policy, the supplied resources, the new engine's rules, and an
enabled-tag set made of the new engine's tags plus the remembered ones. -/
theorem updateAdBlockClient_fields (st : AdBlockEngineState)
    (c : EngineState) (res : String) :
    (updateAdBlockClient st c res).tags = st.tags ∧
    (updateAdBlockClient st c res).regexDiscardPolicy =
      st.regexDiscardPolicy ∧
    (updateAdBlockClient st c res).client.policy = st.regexDiscardPolicy ∧
    (updateAdBlockClient st c res).client.resources = res ∧
    (updateAdBlockClient st c res).client.rules = c.rules ∧
    ∀ t, t ∈ (updateAdBlockClient st c res).client.enabledTags ↔
      t ∈ c.enabledTags ∨ t ∈ st.tags := by
  refine ⟨rfl, rfl, ?_, ?_, ?_, ?_⟩
  · simp [updateAdBlockClient, addKnownTagsToAdBlockInstance, useResources,
      engineUseResources, engineSetupDiscardPolicy, foldl_engineAddTag_policy]
  · simp [updateAdBlockClient, addKnownTagsToAdBlockInstance, useResources,
      engineUseResources, engineSetupDiscardPolicy,
      foldl_engineAddTag_resources]
  · simp [updateAdBlockClient, addKnownTagsToAdBlockInstance, useResources,
      engineUseResources, engineSetupDiscardPolicy, foldl_engineAddTag_rules]
  · intro t
    simp [updateAdBlockClient, addKnownTagsToAdBlockInstance, useResources,
      engineUseResources, engineSetupDiscardPolicy, mem_foldl_engineAddTag]

/-! ### Claim theorems -/

/-- C1: if a block rule with the importance flag and an exception rule both
match a request, `matches` reports the block (`matchedBlock` true and the
block not suppressed) with `matchedImportant` true. -/
theorem importantBlock_overrides_exception (enabledTags : List String)
    (rules : List Rule) (q : Request) (A B : Rule)
    (hA : A ∈ rules) (hAp : rulePredicate enabledTags A q = true)
    (hAb : A.isException = false) (hAi : A.important = true)
    (hB : B ∈ rules) (hBp : rulePredicate enabledTags B q = true)
    (hBe : B.isException = true) :
    (engineMatches enabledTags rules q).matchedBlock = true ∧
    (engineMatches enabledTags rules q).matchedImportant = true ∧
    (engineMatches enabledTags rules q).blocked = true := by
  have hmb : (engineMatches enabledTags rules q).matchedBlock = true := by
    simp only [engineMatches, List.any_eq_true]
    exact ⟨A, List.mem_filter.mpr ⟨hA, hAp⟩, by simp [hAb]⟩
  have hmi : (engineMatches enabledTags rules q).matchedImportant = true := by
    simp only [engineMatches, List.any_eq_true]
    exact ⟨A, List.mem_filter.mpr ⟨hA, hAp⟩, by simp [hAb, hAi]⟩
  exact ⟨hmb, hmi, by simp [MatchResult.blocked, hmb, hmi]⟩

/-- A concrete block rule used by witness instantiations, with a choosable
importance flag. -/
def blockRuleW (imp : Bool) : Rule :=
  { pattern := "ads", resourceTypes := none, thirdParty := none,
    includeDomains := [], excludeDomains := [], tag := none,
    important := imp, isException := false }

/-- A concrete exception rule used by witness instantiations. -/
def exceptionRuleW : Rule :=
  { pattern := "example", resourceTypes := none, thirdParty := none,
    includeDomains := [], excludeDomains := [], tag := none,
    important := false, isException := true }

/-- A concrete request used by witness instantiations. -/
def requestW : Request :=
  { url := "https://ads.example.com/a.js", host := "ads.example.com",
    sourceHost := "news.example.com", isThirdParty := true,
    resourceType := "script" }

/-- C1 witness: a concrete important block rule and a concrete exception
rule both matching a concrete request. -/
theorem importantBlock_overrides_exception_witness :
    (engineMatches [] [blockRuleW true, exceptionRuleW]
      requestW).matchedBlock = true ∧
    (engineMatches [] [blockRuleW true, exceptionRuleW]
      requestW).matchedImportant = true ∧
    (engineMatches [] [blockRuleW true, exceptionRuleW]
      requestW).blocked = true :=
  importantBlock_overrides_exception [] [blockRuleW true, exceptionRuleW]
    requestW (blockRuleW true) exceptionRuleW
    (by simp) (by decide) rfl rfl (by simp) (by decide) rfl

/-- C2: if a block rule and an exception rule both match a request and no
important block rule matches it, `matches` reports the block and the
exception, and the request is not blocked: the exception suppresses the
block. -/
theorem exception_suppresses_plain_block (enabledTags : List String)
    (rules : List Rule) (q : Request) (A B : Rule)
    (hA : A ∈ rules) (hAp : rulePredicate enabledTags A q = true)
    (hAb : A.isException = false)
    (hB : B ∈ rules) (hBp : rulePredicate enabledTags B q = true)
    (hBe : B.isException = true)
    (hni : ∀ r ∈ rules, rulePredicate enabledTags r q = true →
      r.isException = false → r.important = false) :
    (engineMatches enabledTags rules q).matchedBlock = true ∧
    (engineMatches enabledTags rules q).matchedException = true ∧
    (engineMatches enabledTags rules q).blocked = false := by
  have hmb : (engineMatches enabledTags rules q).matchedBlock = true := by
    simp only [engineMatches, List.any_eq_true]
    exact ⟨A, List.mem_filter.mpr ⟨hA, hAp⟩, by simp [hAb]⟩
  have hme : (engineMatches enabledTags rules q).matchedException = true := by
    simp only [engineMatches, List.any_eq_true]
    exact ⟨B, List.mem_filter.mpr ⟨hB, hBp⟩, hBe⟩
  have hmi : (engineMatches enabledTags rules q).matchedImportant = false := by
    simp only [engineMatches, List.any_eq_false]
    intro r hr
    have hmem := List.mem_filter.mp hr
    by_cases he : r.isException = true
    · simp [he]
    · have himp : r.important = false :=
        hni r hmem.1 hmem.2 (by simpa using he)
      simp [himp]
  exact ⟨hmb, hme, by simp [MatchResult.blocked, hmb, hme, hmi]⟩

/-- C2 witness: a concrete non-important block rule and a concrete
exception rule both matching a concrete request. -/
theorem exception_suppresses_plain_block_witness :
    (engineMatches [] [blockRuleW false, exceptionRuleW]
      requestW).matchedBlock = true ∧
    (engineMatches [] [blockRuleW false, exceptionRuleW]
      requestW).matchedException = true ∧
    (engineMatches [] [blockRuleW false, exceptionRuleW]
      requestW).blocked = false :=
  exception_suppresses_plain_block [] [blockRuleW false, exceptionRuleW]
    requestW (blockRuleW false) exceptionRuleW
    (by simp) (by decide) rfl (by simp) (by decide) rfl (by decide)

/-- C7: `matches` reports no block when no rule of the set has its full
predicate (tag requirement, pattern, resource type, third-party constraint,
domain include/exclude) satisfied by the request. -/
theorem no_satisfied_predicate_no_block (enabledTags : List String)
    (rules : List Rule) (q : Request)
    (h : ∀ r ∈ rules, rulePredicate enabledTags r q = false) :
    (engineMatches enabledTags rules q).matchedBlock = false ∧
    (engineMatches enabledTags rules q).blocked = false := by
  have hnil : rules.filter (fun r => rulePredicate enabledTags r q) = [] :=
    List.filter_eq_nil_iff.mpr (by intro r hr; simp [h r hr])
  constructor <;> simp [engineMatches, MatchResult.blocked, hnil]

/-- C7 witness: a concrete rule set where the only rule fails its pattern
predicate on the concrete request. -/
theorem no_satisfied_predicate_no_block_witness :
    (engineMatches []
      [{ pattern := "doubleclick", resourceTypes := none, thirdParty := none,
         includeDomains := [], excludeDomains := [], tag := none,
         important := false, isException := false }]
      { url := "https://example.com/page", host := "example.com",
        sourceHost := "example.com", isThirdParty := false,
        resourceType := "script" }).matchedBlock = false ∧
    (engineMatches []
      [{ pattern := "doubleclick", resourceTypes := none, thirdParty := none,
         includeDomains := [], excludeDomains := [], tag := none,
         important := false, isException := false }]
      { url := "https://example.com/page", host := "example.com",
        sourceHost := "example.com", isThirdParty := false,
        resourceType := "script" }).blocked = false :=
  no_satisfied_predicate_no_block [] _ _ (by decide)

/-- The state constructed by `AdBlockEngine::AdBlockEngine()` (line 101):
a fresh empty engine, no remembered tags, default policy. -/
def initialAdBlockEngine : AdBlockEngineState :=
  { client := emptyEngine, tags := [],
    regexDiscardPolicy := { idleSeconds := 0, maxCompiled := 0 } }

/-- A concrete rule carrying a tag requirement, used by witness
instantiations. -/
def taggedRuleW : Rule :=
  { pattern := "ads", resourceTypes := none, thirdParty := none,
    includeDomains := [], excludeDomains := [], tag := some "twitter",
    important := false, isException := false }

/-- C4: a rule requiring a tag contributes to no match result while the tag
is disabled, regardless of its other predicates; after `EnableTag` with
`enabled = true` the engine's rule index is unchanged (no re-parsing or
rebuild) and the rule's tag requirement is met, so its eligibility on the
next query reduces to its remaining predicates.  The hypothesis `hinv` is
the wrapper invariant that every remembered tag has been forwarded to the
engine. -/
theorem tag_gating (st : AdBlockEngineState) (T : String)
    (rules₁ rules₂ : List Rule) (r : Rule) (q : Request)
    (enabledTags : List String)
    (hr : r.tag = some T)
    (hdis : enabledTags.contains T = false)
    (hinv : ∀ t, t ∈ st.tags → t ∈ st.client.enabledTags) :
    engineMatches enabledTags (rules₁ ++ r :: rules₂) q =
      engineMatches enabledTags (rules₁ ++ rules₂) q ∧
    (enableTag st T true).client.rules = st.client.rules ∧
    ruleActive (enableTag st T true).client.enabledTags r = true ∧
    rulePredicate (enableTag st T true).client.enabledTags r q =
      (patternMatches r.pattern q.url && typeOk r q && thirdPartyOk r q &&
        domainOk r q) := by
  have hTmem : T ∉ enabledTags := by
    intro hm
    rw [contains_iff.mpr hm] at hdis
    exact Bool.noConfusion hdis
  have hpred : rulePredicate enabledTags r q = false := by
    simp [rulePredicate, ruleActive, hr, hTmem]
  have hmem : T ∈ (enableTag st T true).client.enabledTags := by
    by_cases hT : T ∈ st.tags
    · simpa [enableTag, hT] using hinv T hT
    · simp [enableTag, hT, mem_engineAddTag]
  have hact : ruleActive (enableTag st T true).client.enabledTags r = true := by
    simp [ruleActive, hr, hmem, contains_iff]
  refine ⟨?_, ?_, hact, ?_⟩
  · simp [engineMatches, List.filter_append, List.filter_cons, hpred]
  · by_cases hT : T ∈ st.tags
    · simp [enableTag, hT]
    · simp [enableTag, hT, engineAddTag_rules]
  · simp [rulePredicate, hact]

/-- C4 witness: a concrete tagged rule, inert in a concrete rule set while
its tag is disabled and eligible right after `EnableTag` on the initial
wrapper state. -/
theorem tag_gating_witness :
    engineMatches [] ([] ++ taggedRuleW :: []) requestW =
      engineMatches [] ([] ++ []) requestW ∧
    (enableTag initialAdBlockEngine "twitter" true).client.rules =
      initialAdBlockEngine.client.rules ∧
    ruleActive (enableTag initialAdBlockEngine "twitter" true).client.enabledTags
      taggedRuleW = true ∧
    rulePredicate (enableTag initialAdBlockEngine "twitter" true).client.enabledTags
      taggedRuleW requestW =
      (patternMatches taggedRuleW.pattern requestW.url &&
        typeOk taggedRuleW requestW && thirdPartyOk taggedRuleW requestW &&
        domainOk taggedRuleW requestW) :=
  tag_gating initialAdBlockEngine "twitter" [] [] taggedRuleW requestW []
    rfl rfl (by simp [initialAdBlockEngine])

/-- C6: every resource type crossing the boundary maps to a string of the
fixed closed vocabulary or to the empty string; the empty string arises
exactly for workers, shared workers, prefetches, service workers, CSP
reports and plugin resources; and a request carrying the empty type string
never satisfies any type-restricted rule's predicate. -/
theorem resourceType_vocabulary_closed :
    (∀ rt : ResourceType, ResourceTypeToString rt ∈ resourceTypeVocabulary ∨
      ResourceTypeToString rt = "") ∧
    (∀ rt : ResourceType, ResourceTypeToString rt = "" ↔
      rt ∈ [ResourceType.kWorker, ResourceType.kSharedWorker,
        ResourceType.kPrefetch, ResourceType.kServiceWorker,
        ResourceType.kCspReport, ResourceType.kPluginResource]) ∧
    ∀ (enabledTags : List String) (r : Rule) (ts : List String) (q : Request),
      r.resourceTypes = some ts →
      (∀ t ∈ ts, t ∈ resourceTypeVocabulary) →
      q.resourceType = "" →
      rulePredicate enabledTags r q = false := by
  refine ⟨?_, ?_, ?_⟩
  · intro rt; cases rt <;> decide
  · intro rt; cases rt <;> decide
  · intro enabledTags r ts q hrt hsub hq
    have hmem : ("" : String) ∉ ts := fun h1 => by
      simpa [resourceTypeVocabulary] using hsub _ h1
    simp [rulePredicate, typeOk, hrt, hq, hmem]

/-- A concrete rule restricted to the `script` resource type. -/
def scriptRuleW : Rule :=
  { pattern := "ads", resourceTypes := some ["script"], thirdParty := none,
    includeDomains := [], excludeDomains := [], tag := none,
    important := false, isException := false }

/-- A concrete untyped request: its resource-type string is empty. -/
def untypedRequestW : Request :=
  { url := "https://ads.example.com/w.js", host := "ads.example.com",
    sourceHost := "news.example.com", isThirdParty := true,
    resourceType := "" }

/-- C6 witness: a concrete type-restricted rule fails its predicate on a
concrete untyped request even though every other predicate holds. -/
theorem resourceType_vocabulary_closed_witness :
    rulePredicate [] scriptRuleW untypedRequestW = false :=
  resourceType_vocabulary_closed.2.2 [] scriptRuleW ["script"]
    untypedRequestW rfl (by decide) rfl

/-- C5: the wrapper classifies a request as third-party exactly when the
URL host and the tab host differ in registrable domain, the classification
is what `ShouldStartRequest` feeds into the engine's `matches`, and the
concrete subdomain cases behave as specified: same-site subdomains (in
both directions) are first-party and cross-site subdomains are
third-party. -/
theorem thirdParty_registrable_domain (suffixes : List String)
    (st : AdBlockEngineState) (url : GURL) (rt : ResourceType)
    (tabHost : String) :
    (computeThirdParty suffixes url tabHost = true ↔
      registrableDomain suffixes url.host ≠
        registrableDomain suffixes tabHost) ∧
    shouldStartRequest suffixes st url rt tabHost =
      engineMatches st.client.enabledTags st.client.rules
        { url := url.spec, host := url.host, sourceHost := tabHost,
          isThirdParty := computeThirdParty suffixes url tabHost,
          resourceType := ResourceTypeToString rt } ∧
    computeThirdParty ["com"]
      { spec := "https://sub.example.com/p", host := "sub.example.com" }
      "example.com" = false ∧
    computeThirdParty ["com"]
      { spec := "https://a.example.com/p", host := "a.example.com" }
      "b.example.com" = false ∧
    computeThirdParty ["com"]
      { spec := "https://ads.example.com/p", host := "ads.example.com" }
      "news.other.com" = true := by
  refine ⟨?_, rfl, by decide, by decide, by decide⟩
  simp [computeThirdParty, sameDomainOrHost]

/-- C3: deserializing the bytes produced by serializing an index yields an
index with identical `matches` results on every request under every tag
configuration. -/
theorem snapshot_roundtrip_preserves_matches (rules : List Rule) :
    ∃ rules', deserializeIndex (serializeIndex rules) = some rules' ∧
      ∀ (enabledTags : List String) (q : Request),
        engineMatches enabledTags rules' q =
          engineMatches enabledTags rules q :=
  ⟨rules, deserializeIndex_serializeIndex rules, fun _ _ => rfl⟩

/-- C8: loading a snapshot from an empty buffer leaves the wrapper state
exactly as it was (the previous engine stays in use), and loading from a
non-empty buffer that fails to deserialize installs an engine with an
empty index, which matches nothing; no other outcome is observable. -/
theorem failed_snapshot_load_state (parse : List Nat → List Rule)
    (st : AdBlockEngineState) (res : String) (datBuf : List Nat)
    (hne : datBuf ≠ []) (hbad : deserializeIndex datBuf = none) :
    load parse st true [] res = st ∧
    (load parse st true datBuf res).client.rules = [] ∧
    ∀ q : Request,
      engineMatches (load parse st true datBuf res).client.enabledTags
        (load parse st true datBuf res).client.rules q =
      { matchedBlock := false, matchedException := false,
        matchedImportant := false } := by
  have hload : load parse st true datBuf res =
      updateAdBlockClient st (engineDeserialize emptyEngine datBuf) res := by
    simp [load, onDATLoaded, hne]
  have hdeser : engineDeserialize emptyEngine datBuf = emptyEngine := by
    simp [engineDeserialize, hbad]
  have hrules : (load parse st true datBuf res).client.rules = [] := by
    rw [hload,
      (updateAdBlockClient_fields st (engineDeserialize emptyEngine datBuf)
        res).2.2.2.2.1, hdeser]
    rfl
  refine ⟨by simp [load, onDATLoaded], hrules, ?_⟩
  intro q
  rw [hrules]
  rfl

/-- C8 witness: a concrete corrupt one-byte buffer; the empty-buffer load
is the identity on the initial state and the corrupt load yields an empty
index that blocks nothing on a concrete request. -/
theorem failed_snapshot_load_state_witness :
    load (fun _ => []) initialAdBlockEngine true [] "res" =
      initialAdBlockEngine ∧
    (load (fun _ => []) initialAdBlockEngine true [5] "res").client.rules =
      [] ∧
    engineMatches
      (load (fun _ => []) initialAdBlockEngine true [5] "res").client.enabledTags
      (load (fun _ => []) initialAdBlockEngine true [5] "res").client.rules
      requestW =
      { matchedBlock := false, matchedException := false,
        matchedImportant := false } :=
  ⟨(failed_snapshot_load_state (fun _ => []) initialAdBlockEngine "res" [5]
      (by decide) (by decide)).1,
   (failed_snapshot_load_state (fun _ => []) initialAdBlockEngine "res" [5]
      (by decide) (by decide)).2.1,
   (failed_snapshot_load_state (fun _ => []) initialAdBlockEngine "res" [5]
      (by decide) (by decide)).2.2 requestW⟩

/-- A wrapper state with one enabled tag and a configured resource catalog,
used by concrete instantiations: the caller enabled the tag `regional` and
installed the catalog `catalogA`. -/
def configuredStateW : AdBlockEngineState :=
  useResources (enableTag initialAdBlockEngine "regional" true) "catalogA"

theorem engineDeserialize_enabledTags (e : EngineState) (bs : List Nat) :
    (engineDeserialize e bs).enabledTags = e.enabledTags := by
  unfold engineDeserialize
  split <;> rfl

/-- C9 counterexample: the resource catalog does not survive a reload
unchanged.  A caller that configured `catalogA` with `UseResources` and
then reloads passing `catalogB` gets an engine whose catalog is `catalogB`,
not the previously configured `catalogA`: the catalog seen by the new
engine is the reload argument, which the caller must re-supply. -/
theorem reload_overwrites_resource_catalog :
    (load (fun _ => []) configuredStateW false [0]
        "catalogB").client.resources ≠
      configuredStateW.client.resources := by
  decide

/-- C9 amended: after any reload that actually replaces the engine (a list
load, or a snapshot load with a non-empty buffer), the enabled tags and the
configured regex discard policy seen by the new engine instance are exactly
those configured before the reload, without the caller re-issuing those
calls; the resource catalog seen by the new engine is the `resources_json`
argument supplied with the reload itself. -/
theorem reload_reapplies_tags_and_policy (parse : List Nat → List Rule)
    (st : AdBlockEngineState) (deserialize : Bool) (datBuf : List Nat)
    (res : String)
    (h : deserialize = false ∨ datBuf ≠ []) :
    (load parse st deserialize datBuf res).tags = st.tags ∧
    (load parse st deserialize datBuf res).regexDiscardPolicy =
      st.regexDiscardPolicy ∧
    (load parse st deserialize datBuf res).client.policy =
      st.regexDiscardPolicy ∧
    (∀ t, t ∈ (load parse st deserialize datBuf res).client.enabledTags ↔
      t ∈ st.tags) ∧
    (load parse st deserialize datBuf res).client.resources = res := by
  have key : ∀ c : EngineState, c.enabledTags = [] →
      (updateAdBlockClient st c res).tags = st.tags ∧
      (updateAdBlockClient st c res).regexDiscardPolicy =
        st.regexDiscardPolicy ∧
      (updateAdBlockClient st c res).client.policy = st.regexDiscardPolicy ∧
      (∀ t, t ∈ (updateAdBlockClient st c res).client.enabledTags ↔
        t ∈ st.tags) ∧
      (updateAdBlockClient st c res).client.resources = res := by
    intro c hc
    obtain ⟨h1, h2, h3, h4, h5, h6⟩ := updateAdBlockClient_fields st c res
    exact ⟨h1, h2, h3, fun t => by rw [h6 t, hc]; simp, h4⟩
  cases deserialize with
  | false =>
    have hl : load parse st false datBuf res =
        updateAdBlockClient st { emptyEngine with rules := parse datBuf }
          res := by
      simp [load, onListSourceLoaded]
    rw [hl]
    exact key _ rfl
  | true =>
    have hne : datBuf ≠ [] := by
      rcases h with h | h
      · cases h
      · exact h
    have hl : load parse st true datBuf res =
        updateAdBlockClient st (engineDeserialize emptyEngine datBuf)
          res := by
      simp [load, onDATLoaded, hne]
    rw [hl]
    exact key _ (engineDeserialize_enabledTags emptyEngine datBuf)

/-- C9 amended witness: reloading the concretely configured state with new
list data and catalog `catalogB` keeps the remembered tag `regional`
enabled on the new engine and installs the supplied catalog. -/
theorem reload_reapplies_tags_and_policy_witness :
    (load (fun _ => []) configuredStateW false [0] "catalogB").tags =
      configuredStateW.tags ∧
    ("regional" ∈
      (load (fun _ => []) configuredStateW false [0]
        "catalogB").client.enabledTags ↔
      "regional" ∈ configuredStateW.tags) ∧
    (load (fun _ => []) configuredStateW false [0]
      "catalogB").client.resources = "catalogB" :=
  ⟨(reload_reapplies_tags_and_policy (fun _ => []) configuredStateW false
      [0] "catalogB" (Or.inl rfl)).1,
   (reload_reapplies_tags_and_policy (fun _ => []) configuredStateW false
      [0] "catalogB" (Or.inl rfl)).2.2.2.1 "regional",
   (reload_reapplies_tags_and_policy (fun _ => []) configuredStateW false
      [0] "catalogB" (Or.inl rfl)).2.2.2.2⟩

/-- C10: both cosmetic query wrappers are total over malformed engine
output: whenever the JSON produced by the engine fails to parse,
`UrlCosmeticResources` returns an empty dictionary and
`HiddenClassIdSelectors` returns an empty list. -/
theorem cosmetic_queries_total_on_bad_json
    (jsonReadDict : String → Option (List (String × String)))
    (jsonReadList : String → Option (List String))
    (engineCosmetic : String → String)
    (engineHidden : List String → List String → List String → String)
    (url : String) (classes ids exceptions : List String)
    (hd : jsonReadDict (engineCosmetic url) = none)
    (hl : jsonReadList (engineHidden classes ids exceptions) = none) :
    urlCosmeticResources jsonReadDict engineCosmetic url = [] ∧
    hiddenClassIdSelectors jsonReadList engineHidden classes ids
      exceptions = [] := by
  constructor
  · simp [urlCosmeticResources, hd]
  · simp [hiddenClassIdSelectors, hl]

/-- C10 witness: a concrete engine emitting unparseable output. -/
theorem cosmetic_queries_total_on_bad_json_witness :
    urlCosmeticResources (fun _ => none) (fun _ => "not json")
      "https://example.com/page" = [] ∧
    hiddenClassIdSelectors (fun _ => none) (fun _ _ _ => "not json")
      ["cls"] ["id"] [] = [] :=
  cosmetic_queries_total_on_bad_json (fun _ => none) (fun _ => none)
    (fun _ => "not json") (fun _ _ _ => "not json")
    "https://example.com/page" ["cls"] ["id"] [] rfl rfl

end BraveShields
